import Mathlib

/-
Verification of the consultation request / chat / message core of the
healthcare web application.

The Lean definitions below are a shallow embedding of the Python source:
  chat/models.py     (Request, Chat, Message, mark_as_read, unread counts)
  chat/views.py      (RequestAcceptView.post, ChatDetailView, MessageSendView.post)
  chat/consumers.py  (ChatConsumer.connect/receive/chat_message, ChatListConsumer)
  chat/forms.py      (MessageCreateForm.clean)
  personal/models.py (Doctor, UserProfile, is_patient, is_admin_only)

The database is modelled as explicit lists of rows; Django querysets become
list filters; timestamps become natural numbers passed in explicitly where
the code calls timezone.now; fresh primary keys are passed in explicitly
where the ORM would assign them.
-/

namespace HC

/-- Request.Specialization choices (chat/models.py). -/
inductive Specialization
  | nutritionist
  | sports_doctor
  | psychologist
deriving DecidableEq, Repr

/-- Request.Status choices (chat/models.py). -/
inductive Status
  | waiting
  | assigned
  | waiting_doctor
  | doctor_replied
  | closed
deriving DecidableEq, Repr

/-- personal.models.Doctor: a OneToOne to a User plus a specialization and
name fields inherited from BaseProfile. -/
structure Doctor where
  id : Nat
  userId : Nat
  specialization : Specialization
  first_name : String
  last_name : String
  middle_name : String
deriving DecidableEq, Repr

/-- personal.models.UserProfile (patient profile): OneToOne to a User plus
name fields inherited from BaseProfile. -/
structure Profile where
  userId : Nat
  first_name : String
  last_name : String
  middle_name : String
deriving DecidableEq, Repr

/-- django.contrib.auth.models.User, restricted to the fields the chat code
touches. -/
structure UserT where
  id : Nat
  username : String
  first_name : String
  last_name : String
  is_authenticated : Bool
  is_staff : Bool
deriving DecidableEq, Repr

/-- chat.models.Request row. -/
structure Request where
  id : Nat
  patientId : Nat
  doctorId : Option Nat
  title : String
  description : String
  specialization : Specialization
  status : Status
deriving DecidableEq, Repr

/-- chat.models.Chat row: OneToOne to a Request; updated_at is bumped by the
real-time send path. -/
structure Chat where
  id : Nat
  requestId : Nat
  updated_at : Nat
deriving DecidableEq, Repr

/-- chat.models.Message row. -/
structure Message where
  id : Nat
  chatId : Nat
  senderId : Nat
  text : String
  file : Option String
  is_read : Bool
  created_at : Nat
  read_at : Option Nat
deriving DecidableEq, Repr

/-- The database: one list of rows per model. -/
structure DB where
  doctors : List Doctor
  profiles : List Profile
  requests : List Request
  chats : List Chat
  messages : List Message
deriving DecidableEq, Repr

/-- The reverse OneToOne lookup user.doctor. -/
def userDoctor (db : DB) (uid : Nat) : Option Doctor :=
  db.doctors.find? (fun d => d.userId == uid)

/-- The duck-typed role check used throughout the code:
hasattr(user, 'doctor') holds when the related Doctor row exists. -/
def hasDoctor (db : DB) (uid : Nat) : Bool :=
  (userDoctor db uid).isSome

/-- personal.models.is_patient: the related UserProfile row exists. -/
def is_patient (db : DB) (uid : Nat) : Bool :=
  (db.profiles.find? (fun p => p.userId == uid)).isSome

/-- personal.models.is_admin_only: authenticated, staff, and neither doctor
nor patient. -/
def is_admin_only (db : DB) (u : UserT) : Bool :=
  if !u.is_authenticated then false
  else u.is_staff && !hasDoctor db u.id && !is_patient db u.id

/-- Chat.objects.get(pk=chat_id). -/
def findChat (db : DB) (cid : Nat) : Option Chat :=
  db.chats.find? (fun c => c.id == cid)

/-- Request.objects.get(pk=rid) / the chat.request foreign key. -/
def findRequest (db : DB) (rid : Nat) : Option Request :=
  db.requests.find? (fun r => r.id == rid)

/-- Python str.strip() (and the whitespace stripping Django's form fields
apply to text inputs): removes leading and trailing whitespace. -/
def pyStrip (s : String) : String :=
  String.mk (((s.data.dropWhile Char.isWhitespace).reverse.dropWhile
    Char.isWhitespace).reverse)

/-- Python truthiness of an optional string: None and the empty string are
falsy. -/
def truthyOpt (o : Option String) : Bool :=
  match o with
  | none => false
  | some s => s != ""

/-- name.split('/')[-1]: the last segment of a slash-separated path. -/
def lastPathSegment (s : String) : String :=
  match (s.splitOn "/").reverse with
  | [] => s
  | h :: _ => h

/-- BaseProfile.get_full_name: joins the non-empty name parts with spaces. -/
def joinNames (parts : List String) : String :=
  String.intercalate " " (parts.filter (fun p => p != ""))

/-- Doctor.get_full_name (inherited from BaseProfile). -/
def Doctor.get_full_name (d : Doctor) : String :=
  joinNames [d.last_name, d.first_name, d.middle_name]

/-- UserProfile.get_full_name (inherited from BaseProfile). -/
def Profile.get_full_name (p : Profile) : String :=
  joinNames [p.last_name, p.first_name, p.middle_name]

/-- django User.get_full_name: first and last name joined and trimmed. -/
def UserT.get_full_name (u : UserT) : String :=
  pyStrip (u.first_name ++ " " ++ u.last_name)

/-- ChatConsumer.get_user_full_name: doctor name, else profile name or
username, else user full name or username. -/
def get_user_full_name (db : DB) (u : UserT) : String :=
  match userDoctor db u.id with
  | some d => d.get_full_name
  | none =>
    match db.profiles.find? (fun p => p.userId == u.id) with
    | some p => if p.get_full_name != "" then p.get_full_name else u.username
    | none => if u.get_full_name != "" then u.get_full_name else u.username

/-- Outcome of RequestAcceptView.post (chat/views.py). -/
inductive AcceptOutcome
  | notFound
  | specializationMismatch
  | accepted (chatId : Nat)
deriving DecidableEq, Repr

/-- RequestAcceptView.post (chat/views.py lines 99-120):
get_object_or_404(Request, pk=pk, status=WAITING); reject on specialization
mismatch; otherwise set doctor and status=ASSIGNED and create the Chat.
The fresh Chat id is passed in explicitly. -/
def accept (db : DB) (pk : Nat) (d : Doctor) (newChatId : Nat) : AcceptOutcome × DB :=
  match db.requests.find? (fun r => r.id == pk && decide (r.status = Status.waiting)) with
  | none => (AcceptOutcome.notFound, db)
  | some r =>
    if r.specialization ≠ d.specialization then
      (AcceptOutcome.specializationMismatch, db)
    else
      (AcceptOutcome.accepted newChatId,
        { db with
          requests := db.requests.map (fun q =>
            if q.id == pk then { q with doctorId := some d.id, status := Status.assigned } else q)
          chats := db.chats ++ [{ id := newChatId, requestId := pk, updated_at := 0 }] })

/-- Message.mark_as_read (chat/models.py lines 133-139): set is_read and
read_at only when not yet read. -/
def Message.mark_as_read (m : Message) (now : Nat) : Message :=
  if !m.is_read then { m with is_read := true, read_at := some now } else m

/-- The spec invariant relating read_at and is_read on a Message row. -/
def read_invariant (m : Message) : Prop :=
  m.read_at.isSome ↔ m.is_read = true

/-- Chat.get_unread_count_for_user (chat/models.py lines 88-90):
self.messages.filter(is_read=False).exclude(sender=user).count(). -/
def get_unread_count_for_user (db : DB) (c : Chat) (uid : Nat) : Nat :=
  (((db.messages.filter (fun m => m.chatId == c.id)).filter
      (fun m => m.is_read == false)).filter (fun m => !(m.senderId == uid))).length

/-- ChatConsumer.get_unread_count (chat/consumers.py lines 298-307): look up
the chat and count as the model method does; any lookup failure yields 0. -/
def get_unread_count (db : DB) (chat_id : Nat) (uid : Nat) : Nat :=
  match findChat db chat_id with
  | none => 0
  | some c => get_unread_count_for_user db c uid

/-- The bulk read marking shared by ChatDetailView.get_context_data
(chat/views.py lines 148-155) and ChatListConsumer.mark_chat_as_read
(chat/consumers.py lines 400-413): mark_as_read on every message of the
chat that is unread and not authored by the given user. -/
def mark_chat_as_read (db : DB) (chat_id : Nat) (uid : Nat) (now : Nat) : DB :=
  { db with messages := db.messages.map (fun m =>
      if m.chatId == chat_id && !m.is_read && m.senderId != uid then
        m.mark_as_read now
      else m) }

/-- Message.objects.create as called from ChatConsumer.save_message: only
chat, sender and text are set; file stays null, is_read defaults to False,
read_at to null, created_at to now. -/
def newMessage (mid chat_id sender : Nat) (text : String) (now : Nat) : Message :=
  { id := mid, chatId := chat_id, senderId := sender, text := text,
    file := none, is_read := false, created_at := now, read_at := none }

/-- ChatConsumer.save_message (chat/consumers.py lines 219-239): persist the
message and bump chat.updated_at; a missing chat yields None and leaves the
database unchanged.  file_url is accepted but never persisted - the source
stores only the text and leaves file handling unimplemented. -/
def save_message (db : DB) (chat_id : Nat) (u : UserT) (text : String)
    (file_url : Option String) (mid now : Nat) : Option Message × DB :=
  match findChat db chat_id with
  | none => (none, db)
  | some _ =>
    let m := newMessage mid chat_id u.id text now
    (some m,
      { db with
        messages := db.messages ++ [m]
        chats := db.chats.map (fun c =>
          if c.id == chat_id then { c with updated_at := now } else c) })

/-- ChatConsumer.update_request_status (chat/consumers.py lines 241-255):
set the owning request's status according to the sender's role; a missing
chat is swallowed by the exception handler. -/
def update_request_status (db : DB) (chat_id : Nat) (u : UserT) : DB :=
  match findChat db chat_id with
  | none => db
  | some c =>
    { db with requests := db.requests.map (fun q =>
        if q.id == c.requestId then
          { q with status :=
              if (hasDoctor db u.id) then Status.doctor_replied else Status.waiting_doctor }
        else q) }

/-- ChatConsumer.get_chat_info (chat/consumers.py lines 286-296): the
patient's user id and, if a doctor is assigned, the doctor's user id. -/
def get_chat_info (db : DB) (chat_id : Nat) : Option (Nat × Option Nat) :=
  match findChat db chat_id with
  | none => none
  | some c =>
    match findRequest db c.requestId with
    | none => none
    | some r =>
      some (r.patientId,
        match r.doctorId with
        | none => none
        | some did => (db.doctors.find? (fun d => d.id == did)).map (fun d => d.userId))

/-- ChatConsumer.get_chat_updated_at (chat/consumers.py lines 309-316). -/
def get_chat_updated_at (db : DB) (chat_id : Nat) : Option Nat :=
  (findChat db chat_id).map (fun c => c.updated_at)

/-- The payload fields published to the chat group chat_{chat_id} for a new
message (chat/consumers.py lines 77-92). -/
structure ChatMessageEvent where
  message_id : Nat
  sender_id : Nat
  sender_username : String
  sender_is_doctor : Bool
  sender_full_name : String
  text : String
  file_url : Option String
  file_name : Option String
  created_at : Nat
  is_read : Bool
deriving DecidableEq, Repr

/-- The compact notification published to a user group user_{id}_chats
(chat/consumers.py lines 101-133). -/
structure ChatListEvent where
  chat_id : Nat
  message_id : Nat
  sender_id : Nat
  sender_username : String
  text : String
  created_at : Nat
  updated_at : Nat
  unread_count : Nat
deriving DecidableEq, Repr

/-- Observable effects of ChatConsumer.receive: an inline error payload back
to the sender, or a group_send to the chat group or to a user group. -/
inductive SendEffect
  | errorEmpty
  | errorFanout
  | chatGroup (e : ChatMessageEvent)
  | userGroup (userId : Nat) (e : ChatListEvent)
deriving DecidableEq, Repr

/-- ChatConsumer.receive for a chat_message payload (chat/consumers.py lines
51-136).  The text is stripped; an empty message is rejected with an inline
error; otherwise the message is persisted, the chat-group event and the two
user-group notifications are emitted, and the request status is updated.
fanoutThrows models an exception raised by the first group_send: the outer
handler replies with an inline error and nothing is rolled back. -/
def receive_chat_message (db : DB) (chat_id : Nat) (u : UserT) (rawText : String)
    (file_url : Option String) (mid now : Nat) (fanoutThrows : Bool) :
    DB × List SendEffect :=
  let text := pyStrip rawText
  if text == "" && !truthyOpt file_url then
    (db, [SendEffect.errorEmpty])
  else
    match save_message db chat_id u text file_url mid now with
    | (none, db1) => (db1, [])
    | (some m, db1) =>
      if fanoutThrows then
        (db1, [SendEffect.errorFanout])
      else
        let chatEvent : ChatMessageEvent :=
          { message_id := m.id
            sender_id := m.senderId
            sender_username := u.username
            sender_is_doctor := hasDoctor db1 u.id
            sender_full_name := get_user_full_name db1 u
            text := m.text
            file_url := m.file
            file_name := m.file.map lastPathSegment
            created_at := m.created_at
            is_read := m.is_read }
        let listEvents : List SendEffect :=
          match get_chat_info db1 chat_id with
          | none => []
          | some (patient_id, doctorUserId) =>
            let updAt := (get_chat_updated_at db1 chat_id).getD m.created_at
            let patientEvent : ChatListEvent :=
              { chat_id := chat_id
                message_id := m.id
                sender_id := m.senderId
                sender_username := u.username
                text := if m.text != "" then m.text.take 100 else ""
                created_at := m.created_at
                updated_at := updAt
                unread_count := get_unread_count db1 chat_id patient_id }
            match doctorUserId with
            | none => [SendEffect.userGroup patient_id patientEvent]
            | some docUid =>
              [SendEffect.userGroup patient_id patientEvent,
               SendEffect.userGroup docUid
                 { patientEvent with unread_count := get_unread_count db1 chat_id docUid }]
        (update_request_status db1 chat_id u,
         SendEffect.chatGroup chatEvent :: listEvents)

/-- Result of ChatConsumer.connect. -/
inductive ConnectResult
  | closed
  | joined (group : String)
deriving DecidableEq, Repr

/-- ChatConsumer.check_chat_access (chat/consumers.py lines 202-217): a
doctor-user must be the assigned doctor of the chat's request; any other
user must be the request's patient; a missing chat denies access. -/
def check_chat_access (db : DB) (chat_id : Nat) (u : UserT) : Bool :=
  match findChat db chat_id with
  | none => false
  | some c =>
    match findRequest db c.requestId with
    | none => false
    | some r =>
      if hasDoctor db u.id then
        match r.doctorId with
        | none => false
        | some did =>
          match db.doctors.find? (fun d => d.id == did) with
          | none => false
          | some d => d.userId == u.id
      else
        r.patientId == u.id

/-- ChatConsumer.connect (chat/consumers.py lines 12-41): close when not
authenticated or when access is denied; otherwise join the chat group. -/
def connect (db : DB) (chat_id : Nat) (u : UserT) : ConnectResult :=
  if !u.is_authenticated then ConnectResult.closed
  else if !check_chat_access db chat_id u then ConnectResult.closed
  else ConnectResult.joined ("chat_" ++ toString chat_id)

/-- The glossary notion of participant: the patient owning the chat's
request, or the user of the doctor assigned to it. -/
def isParticipant (db : DB) (chat_id : Nat) (u : UserT) : Prop :=
  ∃ c, findChat db chat_id = some c ∧
    ∃ r, findRequest db c.requestId = some r ∧
      (r.patientId = u.id ∨
        ∃ did d, r.doctorId = some did ∧
          db.doctors.find? (fun x => x.id == did) = some d ∧ d.userId = u.id)

/-- The payload a single connection writes back to its client when the chat
group delivers a message event (chat/consumers.py lines 166-189). -/
inductive ClientPayload
  | new_message (e : ChatMessageEvent)
  | message_sent (message_id : Nat) (created_at : Nat)
deriving DecidableEq, Repr

/-- ChatConsumer.chat_message (chat/consumers.py lines 166-189): a
connection whose user is not the sender gets the full message; the sender's
connection gets the acknowledgment instead. -/
def chat_message (e : ChatMessageEvent) (connUserId : Nat) : ClientPayload :=
  if e.sender_id ≠ connUserId then ClientPayload.new_message e
  else ClientPayload.message_sent e.message_id e.created_at

/-- group_send to chat_{chat_id}: the channel layer runs chat_message on
every connection in the group; conns lists the user ids of the connected
clients. -/
def group_fanout (conns : List Nat) (e : ChatMessageEvent) : List (Nat × ClientPayload) :=
  conns.map (fun uid => (uid, chat_message e uid))

/-- Inbound payloads handled by ChatListConsumer.receive. -/
inductive ListInboundMsg
  | mark_chat_read (chat_id : Nat)
  | other
deriving DecidableEq, Repr

/-- ChatListConsumer.receive (chat/consumers.py lines 356-376): only the
mark_chat_read type does anything; it calls mark_chat_as_read on the given
chat id with no check that the user participates in that chat. -/
def chat_list_receive (db : DB) (u : UserT) (msg : ListInboundMsg) (now : Nat) : DB :=
  match msg with
  | ListInboundMsg.mark_chat_read chat_id => mark_chat_as_read db chat_id u.id now
  | ListInboundMsg.other => db

/-- Outcome of MessageSendView.post (chat/views.py). -/
inductive PostOutcome
  | notFound
  | adminDenied
  | accessDenied
  | formInvalid
  | sent
deriving DecidableEq, Repr

/-- MessageCreateForm validity (chat/forms.py lines 53-62): clean() rejects
the form when neither text nor file is provided; the text arrives already
whitespace-stripped by the form field's cleaning. -/
def message_form_valid (text : String) (file : Option String) : Bool :=
  !(pyStrip text == "" && file.isNone)

/-- The body of MessageSendView.post after the access checks (chat/views.py
lines 188-200): validate the form, persist the message with its file, then
set the request status according to the sender's role. -/
def message_send_body (db : DB) (c : Chat) (u : UserT) (text : String)
    (file : Option String) (mid now : Nat) : PostOutcome × DB :=
  if !(message_form_valid text file) then (PostOutcome.formInvalid, db)
  else
    let m : Message :=
      { id := mid, chatId := c.id, senderId := u.id, text := pyStrip text,
        file := file, is_read := false, created_at := now, read_at := none }
    (PostOutcome.sent,
      { db with
        messages := db.messages ++ [m]
        requests := db.requests.map (fun q =>
          if q.id == c.requestId then
            { q with status :=
                if (hasDoctor db u.id) then Status.doctor_replied else Status.waiting_doctor }
          else q) })

/-- MessageSendView.post (chat/views.py lines 164-206): 404 on a missing
chat; admins are rejected; a doctor-user must be the assigned doctor and
any other user must be the patient; then the form body runs. -/
def message_send_post (db : DB) (chat_pk : Nat) (u : UserT) (text : String)
    (file : Option String) (mid now : Nat) : PostOutcome × DB :=
  match findChat db chat_pk with
  | none => (PostOutcome.notFound, db)
  | some c =>
    if is_admin_only db u then (PostOutcome.adminDenied, db)
    else
      match findRequest db c.requestId with
      | none => (PostOutcome.notFound, db)
      | some r =>
        match userDoctor db u.id with
        | some d =>
          if r.doctorId ≠ some d.id then (PostOutcome.accessDenied, db)
          else message_send_body db c u text file mid now
        | none =>
          if r.patientId ≠ u.id then (PostOutcome.accessDenied, db)
          else message_send_body db c u text file mid now

/-- Sample doctor with specialization psychologist. -/
def dPsy : Doctor :=
  { id := 5, userId := 20, specialization := Specialization.psychologist,
    first_name := "Anna", last_name := "Ivanova", middle_name := "" }

/-- Sample doctor with specialization nutritionist. -/
def dNut : Doctor :=
  { id := 6, userId := 21, specialization := Specialization.nutritionist,
    first_name := "Boris", last_name := "Petrov", middle_name := "" }

/-- Sample patient profile. -/
def profP : Profile :=
  { userId := 10, first_name := "P", last_name := "Q", middle_name := "" }

/-- Sample patient user. -/
def uPat : UserT :=
  { id := 10, username := "patient1", first_name := "P", last_name := "Q",
    is_authenticated := true, is_staff := false }

/-- Sample user of the assigned doctor dPsy. -/
def uDoc : UserT :=
  { id := 20, username := "doc1", first_name := "Anna", last_name := "Ivanova",
    is_authenticated := true, is_staff := false }

/-- Sample authenticated user who participates in no chat. -/
def uOther : UserT :=
  { id := 99, username := "intruder", first_name := "", last_name := "",
    is_authenticated := true, is_staff := false }

/-- Sample waiting request asking for a psychologist. -/
def reqWaiting : Request :=
  { id := 1, patientId := 10, doctorId := none, title := "help",
    description := "d", specialization := Specialization.psychologist,
    status := Status.waiting }

/-- Sample request already accepted by dPsy. -/
def reqAssigned : Request :=
  { id := 1, patientId := 10, doctorId := some 5, title := "help",
    description := "d", specialization := Specialization.psychologist,
    status := Status.assigned }

/-- Sample chat for reqAssigned. -/
def chat1 : Chat :=
  { id := 1, requestId := 1, updated_at := 0 }

/-- Sample database holding a single waiting request and no chat. -/
def dbWaiting : DB :=
  { doctors := [dPsy, dNut],
    profiles := [profP],
    requests := [reqWaiting],
    chats := [],
    messages := [] }

/-- Sample database after acceptance: assigned request with its chat. -/
def dbAssigned : DB :=
  { doctors := [dPsy, dNut],
    profiles := [profP],
    requests := [reqAssigned],
    chats := [chat1],
    messages := [] }

/-- An unread message from the doctor in chat 1. -/
def msgFromDoc : Message :=
  { id := 3, chatId := 1, senderId := 20, text := "hi", file := none,
    is_read := false, created_at := 1, read_at := none }

/-- dbAssigned with one unread doctor message. -/
def dbMsgs : DB :=
  { dbAssigned with messages := [msgFromDoc] }

/-- A sample chat-group event whose sender is the doctor's user. -/
def ev0 : ChatMessageEvent :=
  { message_id := 3, sender_id := 20, sender_username := "doc1",
    sender_is_doctor := true, sender_full_name := "Ivanova Anna",
    text := "hi", file_url := none, file_name := none,
    created_at := 1, is_read := false }

end HC

namespace HC

/-- If the first element satisfying p also satisfies q, it is the first
element satisfying their conjunction. -/
theorem find_and {α : Type} (l : List α) (p q : α → Bool) (r : α)
    (h : l.find? p = some r) (hq : q r = true) :
    l.find? (fun a => p a && q a) = some r := by
  induction l with
  | nil => simp [List.find?] at h
  | cons a t ih =>
    by_cases hp : p a = true
    · rw [List.find?_cons_of_pos _ hp] at h
      cases h
      rw [List.find?_cons_of_pos]
      simp [hp, hq]
    · rw [List.find?_cons_of_neg _ (by simp [hp])] at h
      rw [List.find?_cons_of_neg]
      · exact ih h
      · simp [hp]

/-- Mapping a conditional update that preserves the search predicate
commutes with find?. -/
theorem find_map_if {α : Type} (l : List α) (p : α → Bool) (f : α → α)
    (hf : ∀ a, p (f a) = p a) :
    (l.map (fun a => if p a then f a else a)).find? p = (l.find? p).map f := by
  induction l with
  | nil => simp
  | cons a t ih =>
    by_cases hp : p a = true
    · simp only [List.map_cons, hp, if_true]
      rw [List.find?_cons_of_pos _ (by rw [hf]; exact hp),
          List.find?_cons_of_pos _ hp]
      rfl
    · simp only [List.map_cons, hp, if_false, Bool.false_eq_true]
      rw [List.find?_cons_of_neg _ (by simp [hp]),
          List.find?_cons_of_neg _ (by simp [hp])]
      exact ih

/-- C1: accept(request, doctor) succeeds only from status waiting; a
specialization mismatch is rejected with the database unchanged (the
Request keeps status waiting and its null doctor); on success the Request
gets the accepting doctor and status assigned, and exactly one Chat row for
that Request exists afterwards. -/
theorem accept_correct (db : DB) (pk : Nat) (d : Doctor) (cid : Nat) :
    (db.requests.find? (fun q => q.id == pk && decide (q.status = Status.waiting)) = none →
        accept db pk d cid = (AcceptOutcome.notFound, db)) ∧
    (∀ r : Request, db.requests.find? (fun q => q.id == pk) = some r →
      r.status = Status.waiting →
      (r.specialization ≠ d.specialization →
          accept db pk d cid = (AcceptOutcome.specializationMismatch, db)) ∧
      (r.specialization = d.specialization →
          (accept db pk d cid).1 = AcceptOutcome.accepted cid ∧
          (accept db pk d cid).2.requests.find? (fun q => q.id == pk) =
            some { r with doctorId := some d.id, status := Status.assigned } ∧
          (db.chats.countP (fun c => c.requestId == pk) = 0 →
            (accept db pk d cid).2.chats.countP (fun c => c.requestId == pk) = 1))) := by
  constructor
  · intro hnone
    simp [accept, hnone]
  · intro r hfind hw
    have hcomp : db.requests.find?
        (fun q => q.id == pk && decide (q.status = Status.waiting)) = some r :=
      find_and _ _ _ _ hfind (by simp [hw])
    constructor
    · intro hne
      simp [accept, hcomp, hne]
    · intro heq
      have hne : ¬ r.specialization ≠ d.specialization := by simp [heq]
      refine ⟨by simp [accept, hcomp, hne], ?_, ?_⟩
      · simp only [accept, hcomp, hne, if_false]
        rw [find_map_if db.requests (fun q => q.id == pk)
            (fun q => { q with doctorId := some d.id, status := Status.assigned })
            (fun a => rfl), hfind]
        rfl
      · intro hzero
        simp only [accept, hcomp, hne, if_false]
        rw [List.countP_append, hzero]
        simp

/-- C5: mark_as_read is idempotent (a second call changes nothing and
read_at keeps its original value), an unread message becomes read with
read_at set to the current time, the read_at-iff-is_read invariant is
preserved, and a freshly created message satisfies it. -/
theorem mark_as_read_correct (m : Message) (t u : Nat) :
    (m.is_read = true → m.mark_as_read t = m) ∧
    (m.is_read = false →
        (m.mark_as_read t).is_read = true ∧ (m.mark_as_read t).read_at = some t) ∧
    ((m.mark_as_read t).mark_as_read u = m.mark_as_read t) ∧
    (read_invariant m → read_invariant (m.mark_as_read t)) ∧
    (∀ mid cid sid text now, read_invariant (newMessage mid cid sid text now)) := by
  refine ⟨?_, ?_, ?_, ?_, ?_⟩
  · intro h
    simp [Message.mark_as_read, h]
  · intro h
    simp [Message.mark_as_read, h]
  · cases h : m.is_read <;> simp [Message.mark_as_read, h]
  · intro hinv
    cases h : m.is_read <;> simp_all [Message.mark_as_read, read_invariant]
  · intro mid cid sid text now
    simp [newMessage, read_invariant]

/-- Witness for C5: marking the unread sample message sets is_read and
read_at, instantiating mark_as_read_correct concretely. -/
theorem mark_as_read_correct_witness :
    (msgFromDoc.mark_as_read 4).is_read = true ∧
    (msgFromDoc.mark_as_read 4).read_at = some 4 :=
  (mark_as_read_correct msgFromDoc 4 8).2.1 (by decide)

/-- The chained queryset filters of the unread count collapse to a single
countP. -/
theorem chain_count (l : List Message) (cid uid : Nat) :
    (((l.filter (fun m => m.chatId == cid)).filter (fun m => m.is_read == false)).filter
        (fun m => !(m.senderId == uid))).length =
      l.countP (fun m => m.chatId == cid && (m.is_read == false) && !(m.senderId == uid)) := by
  rw [List.filter_filter, List.filter_filter, ← List.countP_eq_length_filter]
  exact List.countP_congr (fun a _ => by
    cases h1 : (a.chatId == cid) <;> cases h2 : a.is_read <;>
      cases h3 : (a.senderId == uid) <;> simp [h1, h2, h3])

/-- After the bulk read marking, no message of the chat is both unread and
authored by someone other than the viewer. -/
theorem countP_after_mark (l : List Message) (cid uid now : Nat) :
    (l.map (fun m =>
        if m.chatId == cid && !m.is_read && m.senderId != uid then
          m.mark_as_read now
        else m)).countP
      (fun m => m.chatId == cid && (m.is_read == false) && !(m.senderId == uid)) = 0 := by
  rw [List.countP_eq_zero]
  intro a ha
  rcases List.mem_map.mp ha with ⟨b, _, hb⟩
  rw [← hb]
  cases h1 : (b.chatId == cid) <;> cases h2 : b.is_read <;>
    cases h3 : (b.senderId == uid) <;>
      simp [h1, h2, h3, Message.mark_as_read, bne]

/-- C6: getUnreadCount(chat, viewer) equals the number of messages of the
chat that are unread and not authored by the viewer, and immediately after
markChatRead(chat, viewer) that count is 0. -/
theorem unread_count_correct (db : DB) (c : Chat) (uid now : Nat) :
    get_unread_count_for_user db c uid =
      db.messages.countP
        (fun m => m.chatId == c.id && (m.is_read == false) && !(m.senderId == uid)) ∧
    get_unread_count_for_user (mark_chat_as_read db c.id uid now) c uid = 0 := by
  constructor
  · exact chain_count db.messages c.id uid
  · rw [get_unread_count_for_user]
    show (((List.filter _ (mark_chat_as_read db c.id uid now).messages).filter _).filter _).length = 0
    rw [chain_count]
    exact countP_after_mark db.messages c.id uid now

/-- A chat returned by findChat has the looked-up id. -/
theorem find_chat_id (db : DB) (cid : Nat) (c : Chat)
    (h : findChat db cid = some c) : c.id = cid := by
  have hp := List.find?_some h
  simpa using hp

/-- C10: the chat-list channel operation mark_chat_read(c) issued by any
authenticated user u marks as read every unread message of chat c not
authored by u and touches nothing else; no hypothesis about u being a
participant of the chat is needed, so a non-participant clears the chat's
unread messages just the same. -/
theorem mark_chat_read_no_access_check (db : DB) (chat_id : Nat) (u : UserT) (now : Nat) :
    (∀ m, m ∈ db.messages → m.chatId = chat_id → m.is_read = false → m.senderId ≠ u.id →
        { m with is_read := true, read_at := some now } ∈
          (chat_list_receive db u (ListInboundMsg.mark_chat_read chat_id) now).messages) ∧
    (∀ m, m ∈ db.messages → ¬(m.chatId = chat_id ∧ m.is_read = false ∧ m.senderId ≠ u.id) →
        m ∈ (chat_list_receive db u (ListInboundMsg.mark_chat_read chat_id) now).messages) ∧
    get_unread_count (chat_list_receive db u (ListInboundMsg.mark_chat_read chat_id) now)
      chat_id u.id = 0 := by
  refine ⟨?_, ?_, ?_⟩
  · intro m hm h1 h2 h3
    apply List.mem_map.mpr
    refine ⟨m, hm, ?_⟩
    have hcond : (m.chatId == chat_id && !m.is_read && m.senderId != u.id) = true := by
      simp [h1, h2, bne, h3]
    rw [hcond]
    simp [Message.mark_as_read, h2]
  · intro m hm hno
    apply List.mem_map.mpr
    refine ⟨m, hm, ?_⟩
    have hcond : (m.chatId == chat_id && !m.is_read && m.senderId != u.id) = false := by
      cases h1 : (m.chatId == chat_id) <;> cases h2 : m.is_read <;>
        cases h3 : (m.senderId == u.id) <;> simp_all [bne]
    rw [hcond]
    rfl
  · show get_unread_count (mark_chat_as_read db chat_id u.id now) chat_id u.id = 0
    unfold get_unread_count
    rw [show findChat (mark_chat_as_read db chat_id u.id now) chat_id = findChat db chat_id from rfl]
    cases hc : findChat db chat_id with
    | none => rfl
    | some c =>
      have hid : c.id = chat_id := find_chat_id db chat_id c hc
      show get_unread_count_for_user (mark_chat_as_read db chat_id u.id now) c u.id = 0
      rw [get_unread_count_for_user]
      show (((List.filter _ (mark_chat_as_read db chat_id u.id now).messages).filter _).filter _).length = 0
      rw [chain_count, hid]
      exact countP_after_mark db.messages chat_id u.id now

/-- Witness for C10: the non-participant uOther (neither the patient nor
the assigned doctor of chat 1) clears the unread doctor message via the
chat-list channel, instantiating mark_chat_read_no_access_check. -/
theorem mark_chat_read_no_access_check_witness :
    { msgFromDoc with is_read := true, read_at := some 9 } ∈
      (chat_list_receive dbMsgs uOther (ListInboundMsg.mark_chat_read 1) 9).messages ∧
    get_unread_count (chat_list_receive dbMsgs uOther (ListInboundMsg.mark_chat_read 1) 9)
      1 uOther.id = 0 := by
  have h := mark_chat_read_no_access_check dbMsgs 1 uOther 9
  exact ⟨h.1 msgFromDoc (by decide) (by decide) (by decide) (by decide), h.2.2⟩

/-- C7: a connection joins the chat_id group only when the user is
authenticated and participates in the chat (patient owner or assigned
doctor's user); a missing chat, a missing authentication or a
non-participant all yield an immediate close carrying no payload. -/
theorem connect_access_correct (db : DB) (chat_id : Nat) (u : UserT) :
    (∀ g, connect db chat_id u = ConnectResult.joined g →
        u.is_authenticated = true ∧ isParticipant db chat_id u ∧
        g = "chat_" ++ toString chat_id) ∧
    (findChat db chat_id = none → connect db chat_id u = ConnectResult.closed) ∧
    (u.is_authenticated = false → connect db chat_id u = ConnectResult.closed) ∧
    (¬ isParticipant db chat_id u → connect db chat_id u = ConnectResult.closed) := by
  have key : check_chat_access db chat_id u = true → isParticipant db chat_id u := by
    intro h
    cases hc : findChat db chat_id with
    | none => simp [check_chat_access, hc] at h
    | some c =>
      cases hr : findRequest db c.requestId with
      | none => simp [check_chat_access, hc, hr] at h
      | some r =>
        by_cases hd : hasDoctor db u.id = true
        · cases hdid : r.doctorId with
          | none => simp [check_chat_access, hc, hr, hd, hdid] at h
          | some did =>
            cases hfd : db.doctors.find? (fun d => d.id == did) with
            | none => simp [check_chat_access, hc, hr, hd, hdid, hfd] at h
            | some d =>
              simp [check_chat_access, hc, hr, hd, hdid, hfd] at h
              exact ⟨c, hc, r, hr, Or.inr ⟨did, d, hdid, hfd, h⟩⟩
        · simp [check_chat_access, hc, hr, hd] at h
          exact ⟨c, hc, r, hr, Or.inl h⟩
  have hjoin : ∀ g, connect db chat_id u = ConnectResult.joined g →
      u.is_authenticated = true ∧ check_chat_access db chat_id u = true ∧
      g = "chat_" ++ toString chat_id := by
    intro g hg
    cases hauth : u.is_authenticated
    · simp [connect, hauth] at hg
    · cases hchk : check_chat_access db chat_id u
      · simp [connect, hauth, hchk] at hg
      · simp only [connect, hauth, hchk, Bool.not_true, Bool.false_eq_true,
          if_false] at hg
        cases hg
        exact ⟨rfl, rfl, rfl⟩
  refine ⟨?_, ?_, ?_, ?_⟩
  · intro g hg
    obtain ⟨h1, h2, h3⟩ := hjoin g hg
    exact ⟨h1, key h2, h3⟩
  · intro hnone
    have hchk : check_chat_access db chat_id u = false := by
      unfold check_chat_access
      rw [hnone]
    cases hauth : u.is_authenticated <;> simp [connect, hauth, hchk]
  · intro hauth
    simp [connect, hauth]
  · intro hp
    cases hres : connect db chat_id u with
    | closed => rfl
    | joined g => exact absurd (key (hjoin g hres).2.1) hp

/-- Witness for C7: the patient's connection to its own chat joins the
chat_1 group, instantiating connect_access_correct concretely. -/
theorem connect_access_correct_witness :
    uPat.is_authenticated = true ∧ isParticipant dbAssigned 1 uPat ∧
    "chat_1" = "chat_" ++ toString 1 :=
  (connect_access_correct dbAssigned 1 uPat).1 "chat_1" (by decide)

/-- Witness for C1: on the sample database the matching doctor is accepted
and exactly one chat is created, instantiating accept_correct concretely. -/
theorem accept_correct_witness :
    (accept dbWaiting 1 dPsy 7).1 = AcceptOutcome.accepted 7 ∧
    (accept dbWaiting 1 dPsy 7).2.requests.find? (fun q => q.id == 1) =
      some { reqWaiting with doctorId := some dPsy.id, status := Status.assigned } ∧
    (accept dbWaiting 1 dPsy 7).2.chats.countP (fun c => c.requestId == 1) = 1 := by
  have h := (accept_correct dbWaiting 1 dPsy 7).2 reqWaiting (by decide) (by decide)
  have h2 := h.2 (by decide)
  exact ⟨h2.1, h2.2.1, h2.2.2 (by decide)⟩

/-- An empty payload (trimmed text empty, no truthy file_url) makes receive
reply with the inline error and change nothing. -/
theorem receive_empty (db : DB) (chat_id : Nat) (u : UserT) (rawText : String)
    (file_url : Option String) (mid now : Nat) (b : Bool)
    (g : (pyStrip rawText == "" && !truthyOpt file_url) = true) :
    receive_chat_message db chat_id u rawText file_url mid now b =
      (db, [SendEffect.errorEmpty]) := by
  simp [receive_chat_message, g]

/-- When the guard passes but the chat does not exist, save_message returns
None and receive does nothing further. -/
theorem receive_nochat (db : DB) (chat_id : Nat) (u : UserT) (rawText : String)
    (file_url : Option String) (mid now : Nat) (b : Bool)
    (g : (pyStrip rawText == "" && !truthyOpt file_url) = false)
    (hc : findChat db chat_id = none) :
    receive_chat_message db chat_id u rawText file_url mid now b = (db, []) := by
  simp [receive_chat_message, g, save_message, hc]

/-- When the first group_send raises, the outer handler answers with an
inline error; the persisted message and the chat bump stay in place. -/
theorem receive_throw (db : DB) (chat_id : Nat) (u : UserT) (rawText : String)
    (file_url : Option String) (mid now : Nat) (c : Chat)
    (g : (pyStrip rawText == "" && !truthyOpt file_url) = false)
    (hc : findChat db chat_id = some c) :
    receive_chat_message db chat_id u rawText file_url mid now true =
      ({ db with
          messages := db.messages ++ [newMessage mid chat_id u.id (pyStrip rawText) now]
          chats := db.chats.map (fun x =>
            if x.id == chat_id then { x with updated_at := now } else x) },
       [SendEffect.errorFanout]) := by
  simp [receive_chat_message, g, save_message, hc]

/-- On the successful path the resulting database is the status update
applied after the persistence step. -/
theorem receive_ok_db (db : DB) (chat_id : Nat) (u : UserT) (rawText : String)
    (file_url : Option String) (mid now : Nat) (c : Chat)
    (g : (pyStrip rawText == "" && !truthyOpt file_url) = false)
    (hc : findChat db chat_id = some c) :
    (receive_chat_message db chat_id u rawText file_url mid now false).1 =
      update_request_status
        { db with
          messages := db.messages ++ [newMessage mid chat_id u.id (pyStrip rawText) now]
          chats := db.chats.map (fun x =>
            if x.id == chat_id then { x with updated_at := now } else x) }
        chat_id u := by
  simp [receive_chat_message, g, save_message, hc]

/-- update_request_status touches only the requests table. -/
theorem update_status_messages (d : DB) (cid : Nat) (u : UserT) :
    (update_request_status d cid u).messages = d.messages := by
  unfold update_request_status
  cases findChat d cid <;> rfl

/-- The request found for the chat after update_request_status carries the
role-determined status and nothing else changed on it. -/
theorem update_status_find (d : DB) (cid : Nat) (u : UserT) (c : Chat) (r : Request)
    (hc : findChat d cid = some c) (hr : findRequest d c.requestId = some r) :
    findRequest (update_request_status d cid u) c.requestId =
      some { r with status :=
        if (hasDoctor d u.id) then Status.doctor_replied else Status.waiting_doctor } := by
  unfold update_request_status
  rw [hc]
  show (d.requests.map (fun q =>
      if q.id == c.requestId then
        { q with status :=
            if (hasDoctor d u.id) then Status.doctor_replied else Status.waiting_doctor }
      else q)).find? (fun q => q.id == c.requestId) = _
  rw [find_map_if d.requests (fun q => q.id == c.requestId)
      (fun q => { q with status :=
          if (hasDoctor d u.id) then Status.doctor_replied else Status.waiting_doctor })
      (fun a => rfl)]
  rw [show d.requests.find? (fun q => q.id == c.requestId) = some r from hr]
  rfl

/-- C8: when a message event is delivered on the chat group, every
connection of a user other than the sender receives the full new_message
payload; the sender's own connection always receives the message_sent
acknowledgment and never a new_message copy of its own message. -/
theorem chat_fanout_correct (conns : List Nat) (e : ChatMessageEvent) :
    (∀ uid, uid ∈ conns → uid ≠ e.sender_id →
        (uid, ClientPayload.new_message e) ∈ group_fanout conns e) ∧
    (∀ uid p, (uid, p) ∈ group_fanout conns e → uid = e.sender_id →
        p = ClientPayload.message_sent e.message_id e.created_at) ∧
    (e.sender_id ∈ conns →
        (e.sender_id, ClientPayload.message_sent e.message_id e.created_at) ∈
          group_fanout conns e) := by
  refine ⟨?_, ?_, ?_⟩
  · intro uid hm hne
    apply List.mem_map.mpr
    exact ⟨uid, hm, by simp [chat_message, Ne.symm hne]⟩
  · intro uid p hm he
    rcases List.mem_map.mp hm with ⟨v, _, hvp⟩
    have h1 : v = uid := congrArg Prod.fst hvp
    have h2 : chat_message e v = p := congrArg Prod.snd hvp
    subst h1
    subst he
    rw [← h2]
    simp [chat_message]
  · intro hm
    apply List.mem_map.mpr
    exact ⟨e.sender_id, hm, by simp [chat_message]⟩

/-- Witness for C8: with connections for the patient (10) and the doctor
(20) and a message sent by 20, user 10 gets new_message and user 20 gets
message_sent, instantiating chat_fanout_correct. -/
theorem chat_fanout_correct_witness :
    (10, ClientPayload.new_message ev0) ∈ group_fanout [10, 20] ev0 ∧
    (20, ClientPayload.message_sent ev0.message_id ev0.created_at) ∈
      group_fanout [10, 20] ev0 := by
  have h := chat_fanout_correct [10, 20] ev0
  exact ⟨h.1 10 (by decide) (by decide), h.2.2 (by decide)⟩

/-- C9: fan-out happens only after persistence.  If persistence fails (the
chat id does not exist) the database is unchanged and no group event is
emitted, so no status transition happens either; any emitted group event
implies the message is in the resulting store; and a failure during fan-out
leaves the already-persisted message in place. -/
theorem persist_before_fanout (db : DB) (chat_id : Nat) (u : UserT) (rawText : String)
    (file_url : Option String) (mid now : Nat) :
    (findChat db chat_id = none → ∀ b : Bool,
        (receive_chat_message db chat_id u rawText file_url mid now b).1 = db ∧
        ∀ e, e ∈ (receive_chat_message db chat_id u rawText file_url mid now b).2 →
          e = SendEffect.errorEmpty) ∧
    (∀ b : Bool, ∀ e, e ∈ (receive_chat_message db chat_id u rawText file_url mid now b).2 →
        e ≠ SendEffect.errorEmpty → e ≠ SendEffect.errorFanout →
        newMessage mid chat_id u.id (pyStrip rawText) now ∈
          (receive_chat_message db chat_id u rawText file_url mid now b).1.messages) ∧
    (∀ c, ¬(pyStrip rawText = "" ∧ truthyOpt file_url = false) →
        findChat db chat_id = some c →
        (receive_chat_message db chat_id u rawText file_url mid now true).1.messages =
          db.messages ++ [newMessage mid chat_id u.id (pyStrip rawText) now]) := by
  refine ⟨?_, ?_, ?_⟩
  · intro hc b
    by_cases g : (pyStrip rawText == "" && !truthyOpt file_url) = true
    · rw [receive_empty db chat_id u rawText file_url mid now b g]
      exact ⟨rfl, by intro e he; simpa using he⟩
    · rw [receive_nochat db chat_id u rawText file_url mid now b
        (Bool.not_eq_true _ ▸ g) hc]
      exact ⟨rfl, by intro e he; simp at he⟩
  · intro b e he hne1 hne2
    by_cases g : (pyStrip rawText == "" && !truthyOpt file_url) = true
    · rw [receive_empty db chat_id u rawText file_url mid now b g] at he
      simp at he
      exact absurd he hne1
    · have g' : (pyStrip rawText == "" && !truthyOpt file_url) = false :=
        Bool.not_eq_true _ ▸ g
      cases hc : findChat db chat_id with
      | none =>
        rw [receive_nochat db chat_id u rawText file_url mid now b g' hc] at he
        simp at he
      | some c =>
        cases b with
        | true =>
          rw [receive_throw db chat_id u rawText file_url mid now c g' hc] at he
          simp at he
          exact absurd he hne2
        | false =>
          rw [receive_ok_db db chat_id u rawText file_url mid now c g' hc,
            update_status_messages]
          exact List.mem_append_right _ (List.mem_singleton.mpr rfl)
  · intro c hguard hc
    have g' : (pyStrip rawText == "" && !truthyOpt file_url) = false := by
      cases ht : (pyStrip rawText == "")
      · simp
      · cases htr : truthyOpt file_url
        · exact absurd ⟨by simpa using ht, htr⟩ hguard
        · simp [htr]
    rw [receive_throw db chat_id u rawText file_url mid now c g' hc]

/-- Witness for C9: on the sample database, a fan-out failure still leaves
the patient's message persisted, instantiating persist_before_fanout. -/
theorem persist_before_fanout_witness :
    (receive_chat_message dbAssigned 1 uPat "hello" none 4 10 true).1.messages =
      dbAssigned.messages ++ [newMessage 4 1 uPat.id "hello" 10] := by
  have h := (persist_before_fanout dbAssigned 1 uPat "hello" none 4 10).2.2
    chat1 (by decide) (by decide)
  exact h

/-- C2 counterexample: the claim says a send with non-empty text proceeds,
but a whitespace-only text with no file is stripped and rejected with the
empty-message error, persisting nothing. -/
theorem empty_message_claim_counterexample :
    " " ≠ "" ∧
    receive_chat_message dbAssigned 1 uPat " " none 4 10 false =
      (dbAssigned, [SendEffect.errorEmpty]) := by
  exact ⟨by decide, rfl⟩

/-- C2 (amended): the real-time send fails with the empty-message error
exactly when the whitespace-trimmed text is empty and no truthy file_url is
given, and then nothing is persisted and no fan-out or status transition
occurs; otherwise no empty-message error is raised and, when the chat
exists, the message is persisted. -/
theorem empty_message_correct (db : DB) (chat_id : Nat) (u : UserT) (rawText : String)
    (file_url : Option String) (mid now : Nat) (b : Bool) :
    (pyStrip rawText = "" ∧ truthyOpt file_url = false →
        receive_chat_message db chat_id u rawText file_url mid now b =
          (db, [SendEffect.errorEmpty])) ∧
    (¬(pyStrip rawText = "" ∧ truthyOpt file_url = false) →
        ∀ c, findChat db chat_id = some c →
          newMessage mid chat_id u.id (pyStrip rawText) now ∈
            (receive_chat_message db chat_id u rawText file_url mid now b).1.messages) := by
  constructor
  · intro h
    have g : (pyStrip rawText == "" && !truthyOpt file_url) = true := by
      simp [h.1, h.2]
    exact receive_empty db chat_id u rawText file_url mid now b g
  · intro hguard c hc
    have g' : (pyStrip rawText == "" && !truthyOpt file_url) = false := by
      cases ht : (pyStrip rawText == "")
      · simp
      · cases htr : truthyOpt file_url
        · exact absurd ⟨by simpa using ht, htr⟩ hguard
        · simp [htr]
    cases b with
    | true =>
      rw [receive_throw db chat_id u rawText file_url mid now c g' hc]
      exact List.mem_append_right _ (List.mem_singleton.mpr rfl)
    | false =>
      rw [receive_ok_db db chat_id u rawText file_url mid now c g' hc,
        update_status_messages]
      exact List.mem_append_right _ (List.mem_singleton.mpr rfl)

/-- Witness for C2: a non-empty text into the existing sample chat is
persisted, instantiating empty_message_correct. -/
theorem empty_message_correct_witness :
    newMessage 4 1 uPat.id "hello" 10 ∈
      (receive_chat_message dbAssigned 1 uPat "hello" none 4 10 false).1.messages :=
  (empty_message_correct dbAssigned 1 uPat "hello" none 4 10 false).2
    (by decide) chat1 (by decide)

/-- C3: the real-time path accepts a payload with empty text and a file
reference, but save_message stores only the text, so a message with empty
text and no file is persisted - violating the invariant that text and file
cannot both be empty, and dropping the attachment the claim promises. -/
theorem empty_text_file_only_bug :
    (receive_chat_message dbAssigned 1 uPat "" (some "uploads/chat/x.pdf") 4 10 false).1.messages =
      [newMessage 4 1 uPat.id "" 10] ∧
    (newMessage 4 1 uPat.id "" 10).text = "" ∧
    (newMessage 4 1 uPat.id "" 10).file = none :=
  ⟨rfl, rfl, rfl⟩

/-- C4: after a successful send on either path (real-time receive or the
form view), the owning request's status becomes doctor_replied when the
sender has the doctor role and waiting_doctor otherwise; if the status
already equals the target, the request row is left unchanged. -/
theorem post_message_status (db : DB) (chat_id mid now : Nat) (u : UserT)
    (c : Chat) (r : Request) (rawText : String) (file_url file : Option String)
    (hc : findChat db chat_id = some c)
    (hr : findRequest db c.requestId = some r) :
    ((pyStrip rawText == "" && !truthyOpt file_url) = false →
      findRequest (receive_chat_message db chat_id u rawText file_url mid now false).1
          c.requestId =
        some { r with status :=
          if (hasDoctor db u.id) then Status.doctor_replied else Status.waiting_doctor } ∧
      (r.status =
          (if (hasDoctor db u.id) then Status.doctor_replied else Status.waiting_doctor) →
        findRequest (receive_chat_message db chat_id u rawText file_url mid now false).1
          c.requestId = some r)) ∧
    (is_admin_only db u = false →
      (∀ d, userDoctor db u.id = some d → r.doctorId = some d.id) →
      (userDoctor db u.id = none → r.patientId = u.id) →
      message_form_valid rawText file = true →
      (message_send_post db chat_id u rawText file mid now).1 = PostOutcome.sent ∧
      findRequest (message_send_post db chat_id u rawText file mid now).2 c.requestId =
        some { r with status :=
          if (hasDoctor db u.id) then Status.doctor_replied else Status.waiting_doctor } ∧
      (r.status =
          (if (hasDoctor db u.id) then Status.doctor_replied else Status.waiting_doctor) →
        findRequest (message_send_post db chat_id u rawText file mid now).2 c.requestId =
          some r)) := by
  constructor
  · intro g
    have hc1 : findChat
        { db with
          messages := db.messages ++ [newMessage mid chat_id u.id (pyStrip rawText) now]
          chats := db.chats.map (fun x =>
            if x.id == chat_id then { x with updated_at := now } else x) }
        chat_id = some { c with updated_at := now } := by
      show (db.chats.map (fun x =>
          if x.id == chat_id then { x with updated_at := now } else x)).find?
            (fun x => x.id == chat_id) = _
      rw [find_map_if db.chats (fun x => x.id == chat_id)
          (fun x => { x with updated_at := now }) (fun a => rfl),
        show db.chats.find? (fun x => x.id == chat_id) = some c from hc]
      rfl
    have hr1 : findRequest
        { db with
          messages := db.messages ++ [newMessage mid chat_id u.id (pyStrip rawText) now]
          chats := db.chats.map (fun x =>
            if x.id == chat_id then { x with updated_at := now } else x) }
        (Chat.requestId { c with updated_at := now }) = some r := hr
    have hmain := update_status_find
      { db with
        messages := db.messages ++ [newMessage mid chat_id u.id (pyStrip rawText) now]
        chats := db.chats.map (fun x =>
          if x.id == chat_id then { x with updated_at := now } else x) }
      chat_id u { c with updated_at := now } r hc1 hr1
    have hdoc : hasDoctor
        { db with
          messages := db.messages ++ [newMessage mid chat_id u.id (pyStrip rawText) now]
          chats := db.chats.map (fun x =>
            if x.id == chat_id then { x with updated_at := now } else x) } u.id =
        hasDoctor db u.id := rfl
    rw [hdoc] at hmain
    rw [receive_ok_db db chat_id u rawText file_url mid now c g hc]
    refine ⟨hmain, ?_⟩
    intro hst
    rw [hmain, ← hst]
  · intro hadmin haccD haccP hform
    have hbody : message_send_post db chat_id u rawText file mid now =
        message_send_body db c u rawText file mid now := by
      unfold message_send_post
      rw [hc, hadmin]
      show (match findRequest db c.requestId with
        | none => (PostOutcome.notFound, db)
        | some r =>
          match userDoctor db u.id with
          | some d =>
            if r.doctorId ≠ some d.id then (PostOutcome.accessDenied, db)
            else message_send_body db c u rawText file mid now
          | none =>
            if r.patientId ≠ u.id then (PostOutcome.accessDenied, db)
            else message_send_body db c u rawText file mid now) =
        message_send_body db c u rawText file mid now
      rw [hr]
      cases hud : userDoctor db u.id with
      | some d =>
        have hd := haccD d hud
        simp [hd]
      | none =>
        have hp := haccP hud
        simp [hp]
    have hvalid : (!(message_form_valid rawText file)) = false := by
      rw [hform]
      rfl
    have hfound : findRequest (message_send_body db c u rawText file mid now).2
        c.requestId =
        some { r with status :=
          if (hasDoctor db u.id) then Status.doctor_replied else Status.waiting_doctor } := by
      unfold message_send_body
      rw [hvalid]
      show (db.requests.map (fun q =>
          if q.id == c.requestId then
            { q with status :=
                if (hasDoctor db u.id) then Status.doctor_replied else Status.waiting_doctor }
          else q)).find? (fun q => q.id == c.requestId) = _
      rw [find_map_if db.requests (fun q => q.id == c.requestId)
          (fun q => { q with status :=
              if (hasDoctor db u.id) then Status.doctor_replied else Status.waiting_doctor })
          (fun a => rfl)]
      rw [show db.requests.find? (fun q => q.id == c.requestId) = some r from hr]
      rfl
    refine ⟨?_, ?_, ?_⟩
    · rw [hbody]
      unfold message_send_body
      rw [hvalid]
      rfl
    · rw [hbody]
      exact hfound
    · intro hst
      rw [hbody, hfound, ← hst]

/-- Witness for C4: the assigned doctor sends a message on each path and
the request status becomes doctor_replied, instantiating
post_message_status concretely. -/
theorem post_message_status_witness :
    findRequest (receive_chat_message dbAssigned 1 uDoc "hi" none 4 10 false).1 1 =
      some { reqAssigned with status := Status.doctor_replied } ∧
    (message_send_post dbAssigned 1 uDoc "hi" none 4 10).1 = PostOutcome.sent ∧
    findRequest (message_send_post dbAssigned 1 uDoc "hi" none 4 10).2 1 =
      some { reqAssigned with status := Status.doctor_replied } := by
  have h := post_message_status dbAssigned 1 4 10 uDoc chat1 reqAssigned "hi" none none
    (by decide) (by decide)
  have h1 := h.1 (by decide)
  have h2 := h.2 (by decide) (fun d hd => by
    have : d = dPsy := by
      have := hd
      simp [userDoctor, dbAssigned, dPsy, dNut, uDoc] at this
      exact this.symm
    rw [this]
    decide) (fun hn => by simp [userDoctor, dbAssigned, dPsy, dNut, uDoc] at hn) (by decide)
  exact ⟨h1.1, h2.1, h2.2.1⟩

end HC
